import Mathlib

/-!
Shallow embedding of `libuavcan_drivers/linux/include/uavcan_linux/helpers.hpp`.

The header provides three things:
* `makeNode`, which builds a `DriverPack`, attaches a list of CAN interface
  names in order via `SocketCanDriver::addIface`, and throws
  `Exception("Failed to add iface " + ifn)` on the first failure;
* `Node` factory methods (`makeSubscriber`, `makePublisher`,
  `makeServiceServer`, `makeServiceClient`) which run the underlying
  `start`/`init` status through `Node::enforce`, throwing
  `Exception(msg + " [" + error + "]")` when the status is negative;
* `BlockingServiceClient<DataType>`, a wrapper over `uavcan::ServiceClient`
  whose `blockingCall` resets the stored response and success flag
  (`setup()`), issues the call, and spins the node in 2 ms slices until the
  wrapped client reports the call resolved, propagating any negative spin
  status immediately.

External collaborators (the uavcan runtime: `call`, `isPending`, `spin`,
the moment the response callback fires) are modelled as an explicit
environment `CallEnv`; the while-loop is given explicit fuel, with `none`
standing for non-termination within the fuel bound.
-/

/-- The C++ exception classes constructed by the throw sites of
`helpers.hpp`.  Both throw sites (`Node::enforce` and `makeNode`) construct
the single generic class `uavcan_linux::Exception`, so this enumeration of
raised kinds has one constructor. -/
inductive ExcClass where
  | Exception
deriving DecidableEq, Repr

/-- A thrown C++ exception: its class together with its message string. -/
structure Exc where
  cls : ExcClass
  msg : String
deriving DecidableEq, Repr

/-- `Node::enforce(int error, const std::string& msg)`: on a negative status
it throws `Exception(msg + " [" + error + "]")`, otherwise it returns. -/
def enforce (error : Int) (msg : String) : Except Exc Unit :=
  if error < 0 then
    .error ⟨ExcClass.Exception, msg ++ " [" ++ toString error ++ "]"⟩
  else
    .ok ()

/-- Handle returned by `Node::makeSubscriber<DataType>`: a started
subscriber, tagged with its data type's full name. -/
structure Subscriber where
  dtName : String
deriving DecidableEq, Repr

/-- Handle returned by `Node::makePublisher<DataType>`: an initialized
publisher with its transmit timeout configured after `enforce`. -/
structure Publisher where
  dtName : String
  txTimeout : Int
deriving DecidableEq, Repr

/-- Handle returned by `Node::makeServiceServer<DataType>`. -/
structure ServiceServer where
  dtName : String
deriving DecidableEq, Repr

/-- Handle returned by `Node::makeServiceClient<DataType>`: an initialized
service client with its callback attached after `enforce`. -/
structure ServiceClient where
  dtName : String
deriving DecidableEq, Repr

/-- `Node::makeSubscriber<DataType>(cb)`: allocates, then
`enforce(p->start(cb), "Subscriber start failure " + name)`, returning the
handle when `enforce` does not throw.  `startRes` is the status returned by
the external runtime's `Subscriber::start`, `dtName` the value of
`DataType::getDataTypeFullName()`. -/
def makeSubscriber (startRes : Int) (dtName : String) : Except Exc Subscriber :=
  (enforce startRes ("Subscriber start failure " ++ dtName)).map fun _ => ⟨dtName⟩

/-- `Node::makePublisher<DataType>(tx_timeout)`: allocates, then
`enforce(p->init(), "Publisher init failure " + name)`, then
`p->setTxTimeout(tx_timeout)`. -/
def makePublisher (initRes : Int) (dtName : String) (txTimeout : Int) :
    Except Exc Publisher :=
  (enforce initRes ("Publisher init failure " ++ dtName)).map fun _ => ⟨dtName, txTimeout⟩

/-- `Node::makeServiceServer<DataType>(cb)`: allocates, then
`enforce(p->start(cb), "ServiceServer start failure " + name)`. -/
def makeServiceServer (startRes : Int) (dtName : String) : Except Exc ServiceServer :=
  (enforce startRes ("ServiceServer start failure " ++ dtName)).map fun _ => ⟨dtName⟩

/-- `Node::makeServiceClient<DataType>(cb)`: allocates, then
`enforce(p->init(), "ServiceClient init failure " + name)`, then
`p->setCallback(cb)`. -/
def makeServiceClient (initRes : Int) (dtName : String) : Except Exc ServiceClient :=
  (enforce initRes ("ServiceClient init failure " ++ dtName)).map fun _ => ⟨dtName⟩

/-- The CAN driver held by a `DriverPack`, with its attached interfaces in
attachment order. -/
structure DriverPack where
  ifaces : List String
deriving DecidableEq, Repr

/-- A `uavcan_linux::Node` owning its `DriverPack`. -/
structure Node where
  driverPack : DriverPack
deriving DecidableEq, Repr

/-- The interface-attachment loop of `makeNode`: for each name in order,
`dp->can.addIface(ifn)`; a negative status throws
`Exception("Failed to add iface " + ifn)`.  `attach` gives the status the
external `SocketCanDriver::addIface` returns for each name. -/
def addIfacesLoop (attach : String → Int) : DriverPack → List String → Except Exc DriverPack
  | dp, [] => .ok dp
  | dp, ifn :: rest =>
    if attach ifn < 0 then
      .error ⟨ExcClass.Exception, "Failed to add iface " ++ ifn⟩
    else
      addIfacesLoop attach ⟨dp.ifaces ++ [ifn]⟩ rest

/-- `makeNode(iface_names, clock_adjustment_mode)`: builds a fresh
`DriverPack`, attaches every interface name in order (aborting on the first
failure), and on success constructs a `Node` owning the pack. -/
def makeNode (attach : String → Int) (ifaceNames : List String) : Except Exc Node :=
  match addIfacesLoop attach ⟨[]⟩ ifaceNames with
  | .error e => .error e
  | .ok dp => .ok ⟨dp⟩

/-- The `uavcan::ServiceCallResult<DataType>` delivered to the client
callback upon resolution: the response payload and `isSuccessful()`. -/
structure ServiceCallResult (Resp : Type) where
  response : Resp
  isSuccessful : Bool
deriving DecidableEq, Repr

/-- The observable state of a `BlockingServiceClient<DataType>`: the stored
`response_`, the `call_was_successful_` flag, and the wrapped
`uavcan::ServiceClient`'s request timeout (the only piece of the base-class
state this header reads or writes, via `setRequestTimeout`). -/
structure BlockingServiceClient (Resp : Type) where
  response_ : Resp
  call_was_successful_ : Bool
  requestTimeout : Int
deriving DecidableEq, Repr

/-- `BlockingServiceClient::callback(res)`: records the response payload
and whether the call fully succeeded. -/
def BlockingServiceClient.callback (s : BlockingServiceClient Resp)
    (res : ServiceCallResult Resp) : BlockingServiceClient Resp :=
  { s with response_ := res.response, call_was_successful_ := res.isSuccessful }

/-- `BlockingServiceClient::setup()`: rebinds the callback (a no-op in this
model, where the callback is fixed), clears the success flag and resets the
stored response to the default-constructed `DataType::Response()`. -/
def BlockingServiceClient.setup [Inhabited Resp] (s : BlockingServiceClient Resp) :
    BlockingServiceClient Resp :=
  { s with call_was_successful_ := false, response_ := default }

/-- The `BlockingServiceClient(uavcan::INode&)` constructor: initializes
`call_was_successful_(false)` and runs `setup()`.  `t0` is whatever request
timeout the freshly constructed wrapped `uavcan::ServiceClient` carries. -/
def BlockingServiceClient.make (Resp : Type) [Inhabited Resp] (t0 : Int) :
    BlockingServiceClient Resp :=
  BlockingServiceClient.setup
    { response_ := default, call_was_successful_ := false, requestTimeout := t0 }

/-- `wasSuccessful()`. -/
def BlockingServiceClient.wasSuccessful (s : BlockingServiceClient Resp) : Bool :=
  s.call_was_successful_

/-- `getResponse()`. -/
def BlockingServiceClient.getResponse (s : BlockingServiceClient Resp) : Resp :=
  s.response_

/-- The behaviour of the external uavcan runtime during one `blockingCall`:
the status of `Super::call`, the status of each successive
`getNode().spin(SpinDuration)` invocation, the index of the spin slice
during which the outstanding call resolves (`none` if it never does), and
the `ServiceCallResult` handed to the callback at that moment.  Resolution
by request timeout inside the wrapped client is a resolution like any
other, with `isSuccessful = false`. -/
structure CallEnv (Resp : Type) where
  callRes : Int
  spinRes : Nat → Int
  resolvesAt : Option Nat
  result : ServiceCallResult Resp

/-- `Super::isPending()` as observed after `k` spin slices have completed:
the call is still pending unless it resolved during one of slices
`0 … k-1`. -/
def CallEnv.isPendingAfter (env : CallEnv Resp) (k : Nat) : Bool :=
  match env.resolvesAt with
  | none => true
  | some r => decide (k ≤ r)

/-- The effect of spin slice `i` on the client state: the callback fires
during that slice exactly when the call resolves there. -/
def CallEnv.spinEffect (env : CallEnv Resp) (s : BlockingServiceClient Resp)
    (i : Nat) : BlockingServiceClient Resp :=
  if env.resolvesAt = some i then s.callback env.result else s

/-- The `while (Super::isPending())` loop of `blockingCall`, started after
`i` spin slices have already run, with explicit `fuel`.  Returns the loop's
result status, the total number of spin invocations performed, and the
client state at return; `none` means the loop did not finish within
`fuel` further iterations.  Each iteration checks `isPending`, runs one
spin slice, and returns the spin status immediately if it is negative;
when the call is no longer pending the loop falls through to
`return call_res`. -/
def spinLoop (env : CallEnv Resp) (s : BlockingServiceClient Resp) (i : Nat) :
    Nat → Option (Int × Nat × BlockingServiceClient Resp)
  | 0 => none
  | fuel + 1 =>
    if env.isPendingAfter i then
      let s' := env.spinEffect s i
      let spin_res := env.spinRes i
      if spin_res < 0 then
        some (spin_res, i + 1, s')
      else
        spinLoop env s' (i + 1) fuel
    else
      some (env.callRes, i, s)

/-- `blockingCall(server_node_id, request)`: runs `setup()`, issues
`Super::call`, and if the issuance status is non-negative enters the spin
loop; otherwise the loop is never entered and the issuance status is
returned directly.  The returned triple is (status, number of spin
invocations performed, client state at return). -/
def blockingCall [Inhabited Resp] (env : CallEnv Resp)
    (s : BlockingServiceClient Resp) (fuel : Nat) :
    Option (Int × Nat × BlockingServiceClient Resp) :=
  let s1 := s.setup
  let call_res := env.callRes
  if 0 ≤ call_res then
    spinLoop env s1 0 fuel
  else
    some (call_res, 0, s1)

/-- The timeout overload
`blockingCall(server_node_id, request, timeout)`: first
`Super::setRequestTimeout(timeout)`, then the plain `blockingCall`. -/
def blockingCallWithTimeout [Inhabited Resp] (env : CallEnv Resp)
    (s : BlockingServiceClient Resp) (timeout : Int) (fuel : Nat) :
    Option (Int × Nat × BlockingServiceClient Resp) :=
  blockingCall env { s with requestTimeout := timeout } fuel

/-- The client state after the first `k` spin slices of a call, starting
from the post-`setup` state `s`: the fold of `spinEffect` over slices
`0 … k-1`. -/
def stateAfterSpins (env : CallEnv Resp) (s : BlockingServiceClient Resp) :
    Nat → BlockingServiceClient Resp
  | 0 => s
  | k + 1 => env.spinEffect (stateAfterSpins env s k) k

/-! ### Helper lemmas -/

lemma enforce_neg (error : Int) (msg : String) (h : error < 0) :
    enforce error msg = .error ⟨ExcClass.Exception, msg ++ " [" ++ toString error ++ "]"⟩ := by
  simp [enforce, h]

lemma enforce_nonneg (error : Int) (msg : String) (h : 0 ≤ error) :
    enforce error msg = .ok () := by
  simp [enforce, Int.not_lt.mpr h]

lemma addIfacesLoop_ok (attach : String → Int) :
    ∀ (names : List String) (dp : DriverPack), (∀ n ∈ names, 0 ≤ attach n) →
      addIfacesLoop attach dp names = .ok ⟨dp.ifaces ++ names⟩
  | [], dp, _ => by simp [addIfacesLoop]
  | ifn :: rest, dp, h => by
    have h0 : 0 ≤ attach ifn := h ifn (List.mem_cons_self ifn rest)
    have hrest : ∀ n ∈ rest, 0 ≤ attach n := fun n hn => h n (List.mem_cons_of_mem _ hn)
    simp only [addIfacesLoop, Int.not_lt.mpr h0, if_false,
      addIfacesLoop_ok attach rest ⟨dp.ifaces ++ [ifn]⟩ hrest]
    simp

lemma addIfacesLoop_firstFail (attach : String → Int) :
    ∀ (pre : List String) (bad : String) (rest : List String) (dp : DriverPack),
      (∀ n ∈ pre, 0 ≤ attach n) → attach bad < 0 →
      addIfacesLoop attach dp (pre ++ bad :: rest)
        = .error ⟨ExcClass.Exception, "Failed to add iface " ++ bad⟩
  | [], bad, rest, dp, _, hbad => by simp [addIfacesLoop, hbad]
  | ifn :: pre, bad, rest, dp, hpre, hbad => by
    have h0 : 0 ≤ attach ifn := hpre ifn (List.mem_cons_self ifn pre)
    have hpre' : ∀ n ∈ pre, 0 ≤ attach n := fun n hn => hpre n (List.mem_cons_of_mem _ hn)
    simp only [List.cons_append, addIfacesLoop, Int.not_lt.mpr h0, if_false]
    exact addIfacesLoop_firstFail attach pre bad rest ⟨dp.ifaces ++ [ifn]⟩ hpre' hbad

lemma addIfacesLoop_ok_iff (attach : String → Int) :
    ∀ (names : List String) (dp : DriverPack),
      (∃ dp', addIfacesLoop attach dp names = .ok dp') ↔ ∀ n ∈ names, 0 ≤ attach n
  | [], dp => by simp [addIfacesLoop]
  | ifn :: rest, dp => by
    constructor
    · rintro ⟨dp', hdp'⟩ n hn
      by_cases h0 : attach ifn < 0
      · simp [addIfacesLoop, h0] at hdp'
      · rcases List.mem_cons.mp hn with rfl | hn'
        · exact Int.not_lt.mp h0
        · simp only [addIfacesLoop, h0, if_false] at hdp'
          exact ((addIfacesLoop_ok_iff attach rest ⟨dp.ifaces ++ [ifn]⟩).mp ⟨dp', hdp'⟩) n hn'
    · intro h
      exact ⟨_, addIfacesLoop_ok attach (ifn :: rest) dp h⟩

lemma addIfacesLoop_error_inv (attach : String → Int) :
    ∀ (names : List String) (dp : DriverPack) (e : Exc),
      addIfacesLoop attach dp names = .error e →
      ∃ n ∈ names, attach n < 0 ∧ e = ⟨ExcClass.Exception, "Failed to add iface " ++ n⟩
  | [], dp, e => by simp [addIfacesLoop]
  | ifn :: rest, dp, e => by
    intro h
    by_cases h0 : attach ifn < 0
    · simp only [addIfacesLoop, h0, if_true, Except.error.injEq] at h
      exact ⟨ifn, List.mem_cons_self ifn rest, h0, h.symm⟩
    · simp only [addIfacesLoop, h0, if_false] at h
      obtain ⟨n, hn, hneg, he⟩ := addIfacesLoop_error_inv attach rest ⟨dp.ifaces ++ [ifn]⟩ e h
      exact ⟨n, List.mem_cons_of_mem _ hn, hneg, he⟩

lemma isPendingAfter_mono (env : CallEnv Resp) (j k : Nat) (hjk : j ≤ k)
    (h : env.isPendingAfter k = true) : env.isPendingAfter j = true := by
  unfold CallEnv.isPendingAfter at *
  cases henv : env.resolvesAt with
  | none => rfl
  | some r =>
    rw [henv] at h
    simp only [decide_eq_true_eq] at h ⊢
    omega

lemma spinLoop_not_pending (env : CallEnv Resp) (s : BlockingServiceClient Resp)
    (i fuel : Nat) (h : env.isPendingAfter i = false) (hfuel : 0 < fuel) :
    spinLoop env s i fuel = some (env.callRes, i, s) := by
  cases fuel with
  | zero => omega
  | succ f => simp [spinLoop, h]

lemma spinLoop_first_neg (env : CallEnv Resp) :
    ∀ (fuel i k : Nat) (s : BlockingServiceClient Resp),
      i ≤ k → k - i < fuel →
      (∀ j, i ≤ j → j ≤ k → env.isPendingAfter j = true) →
      (∀ j, i ≤ j → j < k → 0 ≤ env.spinRes j) →
      env.spinRes k < 0 →
      ∃ s', spinLoop env s i fuel = some (env.spinRes k, k + 1, s')
  | 0, i, k, s => by omega
  | fuel + 1, i, k, s => by
    intro hik hfuel hpend hnn hneg
    rcases Nat.eq_or_lt_of_le hik with rfl | hlt
    · refine ⟨env.spinEffect s i, ?_⟩
      simp [spinLoop, hpend i le_rfl le_rfl, hneg]
    · have h0 : 0 ≤ env.spinRes i := hnn i le_rfl hlt
      have hrec := spinLoop_first_neg env fuel (i + 1) k (env.spinEffect s i)
        hlt (by omega) (fun j hj hjk => hpend j (by omega) hjk)
        (fun j hj hjk => hnn j (by omega) hjk) hneg
      obtain ⟨s', hs'⟩ := hrec
      refine ⟨s', ?_⟩
      simp [spinLoop, hpend i le_rfl hik, Int.not_lt.mpr h0, hs']

lemma spinLoop_resolves (env : CallEnv Resp) (r : Nat) (hres : env.resolvesAt = some r) :
    ∀ (fuel i : Nat) (s : BlockingServiceClient Resp),
      i ≤ r → r - i + 1 < fuel →
      (∀ j, i ≤ j → j ≤ r → 0 ≤ env.spinRes j) →
      spinLoop env s i fuel = some (env.callRes, r + 1, s.callback env.result)
  | 0, i, s => by omega
  | fuel + 1, i, s => by
    intro hir hfuel hnn
    have hpend : env.isPendingAfter i = true := by
      simp [CallEnv.isPendingAfter, hres, hir]
    rcases Nat.eq_or_lt_of_le hir with rfl | hlt
    · have heff : env.spinEffect s i = s.callback env.result := by
        simp [CallEnv.spinEffect, hres]
      have hnp : env.isPendingAfter (i + 1) = false := by
        simp [CallEnv.isPendingAfter, hres]
      simp only [spinLoop, hpend, if_true, heff, Int.not_lt.mpr (hnn i le_rfl le_rfl),
        if_false]
      exact spinLoop_not_pending env _ (i + 1) fuel hnp (by omega)
    · have heff : env.spinEffect s i = s := by
        have : env.resolvesAt ≠ some i := by rw [hres]; intro h; injection h; omega
        simp [CallEnv.spinEffect, this]
      have h0 : 0 ≤ env.spinRes i := hnn i le_rfl (by omega)
      simp only [spinLoop, hpend, if_true, heff, Int.not_lt.mpr h0, if_false]
      exact spinLoop_resolves env r hres fuel (i + 1) s hlt (by omega)
        (fun j hj hjk => hnn j (by omega) hjk)

lemma spinLoop_nonneg_not_pending (env : CallEnv Resp) :
    ∀ (fuel i : Nat) (s : BlockingServiceClient Resp) (st : Int) (k : Nat)
      (s' : BlockingServiceClient Resp),
      spinLoop env s i fuel = some (st, k, s') → 0 ≤ st →
      env.isPendingAfter k = false
  | 0, i, s, st, k, s' => by simp [spinLoop]
  | fuel + 1, i, s, st, k, s' => by
    intro hrun hst
    by_cases hpend : env.isPendingAfter i = true
    · simp only [spinLoop, hpend, if_true] at hrun
      by_cases hneg : env.spinRes i < 0
      · rw [if_pos hneg] at hrun
        simp only [Option.some.injEq, Prod.mk.injEq] at hrun
        obtain ⟨h1, h2, h3⟩ := hrun
        omega
      · rw [if_neg hneg] at hrun
        exact spinLoop_nonneg_not_pending env fuel (i + 1) _ st k s' hrun hst
    · have hpend' : env.isPendingAfter i = false := by
        cases h : env.isPendingAfter i
        · rfl
        · exact absurd h hpend
      simp only [spinLoop, hpend', Bool.false_eq_true, if_false] at hrun
      simp only [Option.some.injEq, Prod.mk.injEq] at hrun
      obtain ⟨h1, h2, h3⟩ := hrun
      rw [← h2]
      exact hpend'

lemma spinLoop_requestTimeout (env : CallEnv Resp) :
    ∀ (fuel i : Nat) (s : BlockingServiceClient Resp) (st : Int) (k : Nat)
      (s' : BlockingServiceClient Resp),
      spinLoop env s i fuel = some (st, k, s') →
      s'.requestTimeout = s.requestTimeout
  | 0, i, s, st, k, s' => by simp [spinLoop]
  | fuel + 1, i, s, st, k, s' => by
    intro hrun
    have heff : (env.spinEffect s i).requestTimeout = s.requestTimeout := by
      unfold CallEnv.spinEffect BlockingServiceClient.callback
      split <;> rfl
    by_cases hpend : env.isPendingAfter i = true
    · simp only [spinLoop, hpend, if_true] at hrun
      by_cases hneg : env.spinRes i < 0
      · rw [if_pos hneg] at hrun
        simp only [Option.some.injEq, Prod.mk.injEq] at hrun
        obtain ⟨h1, h2, h3⟩ := hrun
        rw [← h3]
        exact heff
      · rw [if_neg hneg] at hrun
        rw [spinLoop_requestTimeout env fuel (i + 1) _ st k s' hrun]
        exact heff
    · have hpend' : env.isPendingAfter i = false := by
        cases h : env.isPendingAfter i
        · rfl
        · exact absurd h hpend
      simp only [spinLoop, hpend', Bool.false_eq_true, if_false] at hrun
      simp only [Option.some.injEq, Prod.mk.injEq] at hrun
      obtain ⟨h1, h2, h3⟩ := hrun
      rw [← h3]

/-- Projection of a `blockingCall` result onto what a caller can observe:
the returned status, the number of spin invocations performed, and the
values of `getResponse()` and `wasSuccessful()` afterwards. -/
def callOutcome (x : Int × Nat × BlockingServiceClient Resp) : Int × Nat × Resp × Bool :=
  (x.1, x.2.1, x.2.2.getResponse, x.2.2.wasSuccessful)

lemma spinLoop_outcome_indep (env : CallEnv Resp) :
    ∀ (fuel i : Nat) (s t : BlockingServiceClient Resp),
      s.response_ = t.response_ → s.call_was_successful_ = t.call_was_successful_ →
      Option.map callOutcome (spinLoop env s i fuel)
        = Option.map callOutcome (spinLoop env t i fuel)
  | 0, i, s, t => by simp [spinLoop]
  | fuel + 1, i, s, t => by
    intro hr hf
    have heffr : (env.spinEffect s i).response_ = (env.spinEffect t i).response_ := by
      unfold CallEnv.spinEffect BlockingServiceClient.callback
      split <;> simp [hr]
    have hefff : (env.spinEffect s i).call_was_successful_
        = (env.spinEffect t i).call_was_successful_ := by
      unfold CallEnv.spinEffect BlockingServiceClient.callback
      split <;> simp [hf]
    by_cases hpend : env.isPendingAfter i = true
    · by_cases hneg : env.spinRes i < 0
      · simp [spinLoop, hpend, hneg, callOutcome, BlockingServiceClient.getResponse,
          BlockingServiceClient.wasSuccessful, heffr, hefff]
      · simp only [spinLoop, hpend, if_true, hneg, if_false]
        exact spinLoop_outcome_indep env fuel (i + 1) _ _ heffr hefff
    · have hpend' : env.isPendingAfter i = false := by
        cases h : env.isPendingAfter i
        · rfl
        · exact absurd h hpend
      simp [spinLoop, hpend', callOutcome, BlockingServiceClient.getResponse,
        BlockingServiceClient.wasSuccessful, hr, hf]

lemma stateAfterSpins_of_pending (env : CallEnv Resp) (s : BlockingServiceClient Resp) :
    ∀ k, env.isPendingAfter k = true → stateAfterSpins env s k = s
  | 0, _ => rfl
  | k + 1, h => by
    have hk : env.isPendingAfter k = true := isPendingAfter_mono env k (k + 1) (by omega) h
    have hne : env.resolvesAt ≠ some k := by
      unfold CallEnv.isPendingAfter at h
      cases henv : env.resolvesAt with
      | none => simp
      | some r =>
        rw [henv] at h
        simp only [decide_eq_true_eq] at h
        intro hc
        injection hc with hc
        omega
    simp only [stateAfterSpins, CallEnv.spinEffect, hne, if_false,
      stateAfterSpins_of_pending env s k hk]

/-! ### Claims -/

/-- Claim C1: for every `blockingCall` whose issuance succeeds
(non-negative call status), if any spin invocation performed while the
call is still pending returns a negative status, `blockingCall` returns
that same negative status immediately — after exactly that spin
invocation, performing no further spin iterations and not waiting for the
configured request timeout. -/
theorem blockingCall_propagates_spin_error [Inhabited Resp] (env : CallEnv Resp)
    (s : BlockingServiceClient Resp) (k fuel : Nat)
    (hcall : 0 ≤ env.callRes)
    (hpend : ∀ j, j ≤ k → env.isPendingAfter j = true)
    (hok : ∀ j, j < k → 0 ≤ env.spinRes j)
    (hneg : env.spinRes k < 0)
    (hfuel : k < fuel) :
    ∃ s', blockingCall env s fuel = some (env.spinRes k, k + 1, s') := by
  unfold blockingCall
  rw [if_pos hcall]
  exact spinLoop_first_neg env fuel 0 k s.setup (Nat.zero_le k) (by omega)
    (fun j _ hj => hpend j hj) (fun j _ hj => hok j hj) hneg

/-- Concrete run of `blockingCall_propagates_spin_error`: issuance status 0,
the very first spin returns -7, the call never resolves; the call returns
-7 after exactly one spin invocation. -/
def envSpinFail : CallEnv Int :=
  { callRes := 0
    spinRes := fun _ => -7
    resolvesAt := none
    result := { response := 0, isSuccessful := true } }

theorem blockingCall_propagates_spin_error_witness :
    ∃ s', blockingCall envSpinFail (BlockingServiceClient.make Int 100) 3
      = some (-7, 1, s') :=
  blockingCall_propagates_spin_error envSpinFail (BlockingServiceClient.make Int 100)
    0 3 (by decide) (fun j _ => rfl) (fun j hj => absurd hj (Nat.not_lt_zero j))
    (by decide) (by decide)

/-- Claim C2: for every `blockingCall` where issuing the underlying call
returns a negative status, `blockingCall` returns exactly that negative
status with zero spin invocations performed — the spin loop is never
entered. -/
theorem blockingCall_issuance_failure [Inhabited Resp] (env : CallEnv Resp)
    (s : BlockingServiceClient Resp) (fuel : Nat)
    (hcall : env.callRes < 0) :
    blockingCall env s fuel = some (env.callRes, 0, s.setup) := by
  unfold blockingCall
  rw [if_neg (by omega)]

/-- Concrete run of `blockingCall_issuance_failure`: `Super::call` returns
-3; `blockingCall` returns -3 with zero spins. -/
def envCallFail : CallEnv Int :=
  { callRes := -3
    spinRes := fun _ => 0
    resolvesAt := none
    result := { response := 0, isSuccessful := true } }

theorem blockingCall_issuance_failure_witness :
    blockingCall envCallFail (BlockingServiceClient.make Int 100) 5
      = some (-3, 0, (BlockingServiceClient.make Int 100).setup) :=
  blockingCall_issuance_failure envCallFail (BlockingServiceClient.make Int 100) 5
    (by decide)

/-- Claim C3: for every `blockingCall` whose issuance succeeds and during
which no spin invocation returns a negative status, the returned value is
the original issuance status `callRes`, whatever `ServiceCallResult` the
call resolved with (successfully or not); the outcome is exposed only via
the stored state, whose accessors afterwards return exactly the delivered
response and success flag. -/
theorem blockingCall_returns_issuance_status [Inhabited Resp] (env : CallEnv Resp)
    (s : BlockingServiceClient Resp) (r fuel : Nat)
    (hcall : 0 ≤ env.callRes)
    (hres : env.resolvesAt = some r)
    (hok : ∀ j, j ≤ r → 0 ≤ env.spinRes j)
    (hfuel : r + 1 < fuel) :
    blockingCall env s fuel
        = some (env.callRes, r + 1, s.setup.callback env.result)
      ∧ (s.setup.callback env.result).wasSuccessful = env.result.isSuccessful
      ∧ (s.setup.callback env.result).getResponse = env.result.response := by
  refine ⟨?_, rfl, rfl⟩
  unfold blockingCall
  rw [if_pos hcall]
  exact spinLoop_resolves env r hres fuel 0 s.setup (Nat.zero_le r) (by omega)
    (fun j _ hj => hok j hj)

/-- Concrete run of `blockingCall_returns_issuance_status`: issuance status
4, the call resolves during the second spin slice with an unsuccessful
outcome, yet `blockingCall` still returns 4. -/
def envResolved : CallEnv Int :=
  { callRes := 4
    spinRes := fun _ => 0
    resolvesAt := some 1
    result := { response := 55, isSuccessful := false } }

theorem blockingCall_returns_issuance_status_witness :
    blockingCall envResolved (BlockingServiceClient.make Int 100) 4
        = some (4, 2, (BlockingServiceClient.make Int 100).setup.callback envResolved.result)
      ∧ ((BlockingServiceClient.make Int 100).setup.callback envResolved.result).wasSuccessful
          = envResolved.result.isSuccessful
      ∧ ((BlockingServiceClient.make Int 100).setup.callback envResolved.result).getResponse
          = envResolved.result.response :=
  blockingCall_returns_issuance_status envResolved (BlockingServiceClient.make Int 100)
    1 4 (by decide) rfl (fun j _ => Int.le_refl 0) (by decide)

/-- Claim C4: every `blockingCall` first resets the stored response to the
default-valued response and the success flag to `false` before issuing the
request (`setup()`), and consequently the outcome of a `blockingCall` —
its status, its number of spin invocations, and the subsequent values of
`getResponse()`/`wasSuccessful()` — is identical from any two prior states
of the same client, in particular whatever an earlier failed call left
behind. -/
theorem blockingCall_resets_state [Inhabited Resp] (env : CallEnv Resp)
    (s t : BlockingServiceClient Resp) (fuel : Nat) :
    (s.setup.getResponse = (default : Resp) ∧ s.setup.wasSuccessful = false)
    ∧ Option.map callOutcome (blockingCall env s fuel)
        = Option.map callOutcome (blockingCall env t fuel) := by
  refine ⟨⟨rfl, rfl⟩, ?_⟩
  unfold blockingCall
  by_cases hcall : 0 ≤ env.callRes
  · rw [if_pos hcall, if_pos hcall]
    exact spinLoop_outcome_indep env fuel 0 s.setup t.setup rfl rfl
  · rw [if_neg hcall, if_neg hcall]
    simp [callOutcome, BlockingServiceClient.setup, BlockingServiceClient.getResponse,
      BlockingServiceClient.wasSuccessful]

/-- Claim C5: `makeNode` attaches the interface names in list order and
succeeds — returning a node owning a transport with exactly those
interfaces — if and only if every name attaches with a non-negative
status; when some name fails, it aborts at the first failing name with an
error identifying that name, and no node is produced. -/
theorem makeNode_spec (attach : String → Int) (names : List String) :
    ((∀ n ∈ names, 0 ≤ attach n) → makeNode attach names = .ok ⟨⟨names⟩⟩)
    ∧ (∀ pre bad rest, names = pre ++ bad :: rest →
        (∀ n ∈ pre, 0 ≤ attach n) → attach bad < 0 →
        makeNode attach names
          = .error ⟨ExcClass.Exception, "Failed to add iface " ++ bad⟩)
    ∧ ((∃ node, makeNode attach names = .ok node) ↔ ∀ n ∈ names, 0 ≤ attach n) := by
  refine ⟨?_, ?_, ?_, ?_⟩
  · intro h
    unfold makeNode
    rw [addIfacesLoop_ok attach names ⟨[]⟩ h]
    rfl
  · rintro pre bad rest rfl hpre hbad
    unfold makeNode
    rw [addIfacesLoop_firstFail attach pre bad rest ⟨[]⟩ hpre hbad]
  · rintro ⟨node, hnode⟩
    rcases hloop : addIfacesLoop attach ⟨[]⟩ names with e | dp
    · unfold makeNode at hnode
      rw [hloop] at hnode
      exact absurd hnode (by simp)
    · exact (addIfacesLoop_ok_iff attach names ⟨[]⟩).mp ⟨dp, hloop⟩
  · intro h
    refine ⟨⟨⟨names⟩⟩, ?_⟩
    unfold makeNode
    rw [addIfacesLoop_ok attach names ⟨[]⟩ h]
    rfl

/-- Interface-attachment behaviour used by `makeNode_spec_witness`:
attaching succeeds for every name except `"can1"`. -/
def attachButCan1 : String → Int := fun n => if n = "can1" then -1 else 2

theorem makeNode_spec_witness :
    makeNode attachButCan1 ["can0"] = .ok ⟨⟨["can0"]⟩⟩
    ∧ makeNode attachButCan1 ["can0", "can1", "can2"]
        = .error ⟨ExcClass.Exception, "Failed to add iface " ++ "can1"⟩ :=
  ⟨(makeNode_spec attachButCan1 ["can0"]).1 (by decide),
   (makeNode_spec attachButCan1 ["can0", "can1", "can2"]).2.1 ["can0"] "can1" ["can2"]
     rfl (by decide) (by decide)⟩

/-- Claim C6: for each endpoint factory (`makeSubscriber`, `makePublisher`,
`makeServiceServer`, `makeServiceClient`), a negative underlying
`start`/`init` status makes the factory raise the error built by
`enforce` — carrying the data-type name and the underlying numeric status
— and produce no handle, while a non-negative status yields an owning
handle. -/
theorem endpoint_factory_enforce (st : Int) (dtName : String) (txTimeout : Int) :
    (st < 0 →
      makeSubscriber st dtName = .error ⟨ExcClass.Exception,
          "Subscriber start failure " ++ dtName ++ " [" ++ toString st ++ "]"⟩
      ∧ makePublisher st dtName txTimeout = .error ⟨ExcClass.Exception,
          "Publisher init failure " ++ dtName ++ " [" ++ toString st ++ "]"⟩
      ∧ makeServiceServer st dtName = .error ⟨ExcClass.Exception,
          "ServiceServer start failure " ++ dtName ++ " [" ++ toString st ++ "]"⟩
      ∧ makeServiceClient st dtName = .error ⟨ExcClass.Exception,
          "ServiceClient init failure " ++ dtName ++ " [" ++ toString st ++ "]"⟩)
    ∧ (0 ≤ st →
      makeSubscriber st dtName = .ok ⟨dtName⟩
      ∧ makePublisher st dtName txTimeout = .ok ⟨dtName, txTimeout⟩
      ∧ makeServiceServer st dtName = .ok ⟨dtName⟩
      ∧ makeServiceClient st dtName = .ok ⟨dtName⟩) := by
  constructor
  · intro h
    refine ⟨?_, ?_, ?_, ?_⟩ <;>
      simp [makeSubscriber, makePublisher, makeServiceServer, makeServiceClient,
        enforce_neg _ _ h, Except.map]
  · intro h
    refine ⟨?_, ?_, ?_, ?_⟩ <;>
      simp [makeSubscriber, makePublisher, makeServiceServer, makeServiceClient,
        enforce_nonneg _ _ h, Except.map]

theorem endpoint_factory_enforce_witness :
    makeSubscriber (-5) "uavcan.protocol.GetNodeInfo" = .error ⟨ExcClass.Exception,
        "Subscriber start failure " ++ "uavcan.protocol.GetNodeInfo"
          ++ " [" ++ toString (-5 : Int) ++ "]"⟩
    ∧ makeServiceClient 3 "uavcan.protocol.GetNodeInfo"
        = .ok ⟨"uavcan.protocol.GetNodeInfo"⟩ :=
  ⟨((endpoint_factory_enforce (-5) "uavcan.protocol.GetNodeInfo" 20).1 (by decide)).1,
   ((endpoint_factory_enforce 3 "uavcan.protocol.GetNodeInfo" 20).2 (by decide)).2.2.2⟩

/-- Interface-attachment behaviour where every attachment fails. -/
def attachNone : String → Int := fun _ => -1

/-- Claim C7 counterexample: the claim asserts that node construction and
the endpoint factories raise errors of distinguishable kinds
(ConfigurationError vs InitializationError).  In the code both throw sites
construct the same single exception class `uavcan_linux::Exception`: at
these concrete failing inputs the two raised errors have equal class, so
they are not distinguishable by error kind. -/
theorem construction_and_factory_errors_same_kind :
    ∃ e1 e2 : Exc,
      makeNode attachNone ["can0"] = .error e1
      ∧ makeSubscriber (-1) "uavcan.protocol.NodeStatus" = .error e2
      ∧ e1.cls = e2.cls := by
  refine ⟨⟨ExcClass.Exception, "Failed to add iface " ++ "can0"⟩,
    ⟨ExcClass.Exception, "Subscriber start failure " ++ "uavcan.protocol.NodeStatus"
      ++ " [" ++ toString (-1 : Int) ++ "]"⟩, ?_, ?_, rfl⟩
  · rfl
  · rfl

lemma enforce_map_error_inv {α : Type} (st : Int) (m : String) (f : Unit → α) (e : Exc)
    (h : (enforce st m).map f = .error e) :
    e.cls = ExcClass.Exception ∧ e.msg = m ++ " [" ++ toString st ++ "]" := by
  by_cases hst : st < 0
  · rw [enforce_neg st m hst] at h
    simp only [Except.map, Except.error.injEq] at h
    rw [← h]
    exact ⟨rfl, rfl⟩
  · rw [enforce_nonneg st m (Int.not_lt.mp hst)] at h
    simp [Except.map] at h

/-- Claim C7 (amended): every failure raised by `makeNode` or by an
endpoint factory is of the single exception class
`uavcan_linux::Exception`; the raised errors are distinguishable only by
their message content — a construction failure carries the failing
interface name, an endpoint failure carries the factory's context string
with the data-type name and the numeric status — not by error kind. -/
theorem helpers_single_error_kind (attach : String → Int) (names : List String)
    (st : Int) (dtName : String) (txTimeout : Int) :
    (∀ e, makeNode attach names = .error e →
        e.cls = ExcClass.Exception
        ∧ ∃ n ∈ names, attach n < 0 ∧ e.msg = "Failed to add iface " ++ n)
    ∧ (∀ e, makeSubscriber st dtName = .error e →
        e.cls = ExcClass.Exception
        ∧ e.msg = "Subscriber start failure " ++ dtName ++ " [" ++ toString st ++ "]")
    ∧ (∀ e, makePublisher st dtName txTimeout = .error e →
        e.cls = ExcClass.Exception
        ∧ e.msg = "Publisher init failure " ++ dtName ++ " [" ++ toString st ++ "]")
    ∧ (∀ e, makeServiceServer st dtName = .error e →
        e.cls = ExcClass.Exception
        ∧ e.msg = "ServiceServer start failure " ++ dtName ++ " [" ++ toString st ++ "]")
    ∧ (∀ e, makeServiceClient st dtName = .error e →
        e.cls = ExcClass.Exception
        ∧ e.msg = "ServiceClient init failure " ++ dtName ++ " [" ++ toString st ++ "]") := by
  refine ⟨?_, fun e h => enforce_map_error_inv st _ _ e h,
    fun e h => enforce_map_error_inv st _ _ e h,
    fun e h => enforce_map_error_inv st _ _ e h,
    fun e h => enforce_map_error_inv st _ _ e h⟩
  intro e h
  rcases hloop : addIfacesLoop attach ⟨[]⟩ names with e' | dp
  · unfold makeNode at h
    rw [hloop] at h
    injection h with h
    obtain ⟨n, hn, hneg, he⟩ := addIfacesLoop_error_inv attach names ⟨[]⟩ e' hloop
    subst h
    rw [he]
    exact ⟨rfl, n, hn, hneg, rfl⟩
  · unfold makeNode at h
    rw [hloop] at h
    exact absurd h (by simp)

theorem helpers_single_error_kind_witness :
    (⟨ExcClass.Exception, "Failed to add iface " ++ "can0"⟩ : Exc).cls = ExcClass.Exception
    ∧ ∃ n ∈ ["can0"], attachNone n < 0
        ∧ (⟨ExcClass.Exception, "Failed to add iface " ++ "can0"⟩ : Exc).msg
            = "Failed to add iface " ++ n :=
  (helpers_single_error_kind attachNone ["can0"] (-1) "uavcan.protocol.NodeStatus" 0).1
    ⟨ExcClass.Exception, "Failed to add iface " ++ "can0"⟩ rfl

/-- Claim C8: a freshly constructed `BlockingServiceClient` (no call made
yet) reports `wasSuccessful() = false` and the default-valued response;
and as long as the current call is still pending after `k` spin slices the
client state — reset by `setup()` at the start of the call — still reports
`false` and the default-valued response. -/
theorem client_default_before_resolution [Inhabited Resp] (env : CallEnv Resp)
    (s : BlockingServiceClient Resp) (t0 : Int) :
    ((BlockingServiceClient.make Resp t0).wasSuccessful = false
      ∧ (BlockingServiceClient.make Resp t0).getResponse = (default : Resp))
    ∧ ∀ k, env.isPendingAfter k = true →
        (stateAfterSpins env s.setup k).wasSuccessful = false
        ∧ (stateAfterSpins env s.setup k).getResponse = (default : Resp) := by
  refine ⟨⟨rfl, rfl⟩, fun k hk => ?_⟩
  rw [stateAfterSpins_of_pending env s.setup k hk]
  exact ⟨rfl, rfl⟩

/-- Runtime behaviour used by `client_default_before_resolution_witness`:
the call resolves only during the sixth spin slice. -/
def envLateResolve : CallEnv Int :=
  { callRes := 0
    spinRes := fun _ => 0
    resolvesAt := some 5
    result := { response := 9, isSuccessful := true } }

theorem client_default_before_resolution_witness :
    ((BlockingServiceClient.make Int 25).wasSuccessful = false
      ∧ (BlockingServiceClient.make Int 25).getResponse = (default : Int))
    ∧ ((stateAfterSpins envLateResolve (BlockingServiceClient.make Int 25).setup 3).wasSuccessful
          = false
      ∧ (stateAfterSpins envLateResolve (BlockingServiceClient.make Int 25).setup 3).getResponse
          = (default : Int)) :=
  ⟨(client_default_before_resolution envLateResolve (BlockingServiceClient.make Int 25) 25).1,
   (client_default_before_resolution envLateResolve
     (BlockingServiceClient.make Int 25) 25).2 3 (by decide)⟩

/-- Claim C9: whenever `blockingCall` returns a non-negative status, the
wrapped call is no longer pending at the moment of return: the spin loop
is exited only once `isPending()` is false, so a non-negative return never
leaves an outstanding call behind. -/
theorem blockingCall_nonneg_resolved [Inhabited Resp] (env : CallEnv Resp)
    (s : BlockingServiceClient Resp) (fuel : Nat) (st : Int) (k : Nat)
    (s' : BlockingServiceClient Resp)
    (hrun : blockingCall env s fuel = some (st, k, s'))
    (hst : 0 ≤ st) :
    env.isPendingAfter k = false := by
  unfold blockingCall at hrun
  by_cases hcall : 0 ≤ env.callRes
  · rw [if_pos hcall] at hrun
    exact spinLoop_nonneg_not_pending env fuel 0 s.setup st k s' hrun hst
  · rw [if_neg hcall] at hrun
    simp only [Option.some.injEq, Prod.mk.injEq] at hrun
    obtain ⟨h1, h2, h3⟩ := hrun
    omega

/-- Runtime behaviour used by `blockingCall_nonneg_resolved_witness`: the
call resolves during the very first spin slice. -/
def envResolveNow : CallEnv Int :=
  { callRes := 0
    spinRes := fun _ => 0
    resolvesAt := some 0
    result := { response := 42, isSuccessful := true } }

theorem blockingCall_nonneg_resolved_witness :
    envResolveNow.isPendingAfter 1 = false :=
  blockingCall_nonneg_resolved envResolveNow (BlockingServiceClient.make Int 0) 2 0 1
    ⟨42, true, 0⟩ (by decide) (by decide)

lemma blockingCall_requestTimeout [Inhabited Resp] (env : CallEnv Resp)
    (s : BlockingServiceClient Resp) (fuel : Nat) (st : Int) (k : Nat)
    (s' : BlockingServiceClient Resp)
    (hrun : blockingCall env s fuel = some (st, k, s')) :
    s'.requestTimeout = s.requestTimeout := by
  unfold blockingCall at hrun
  by_cases hcall : 0 ≤ env.callRes
  · rw [if_pos hcall] at hrun
    exact spinLoop_requestTimeout env fuel 0 s.setup st k s' hrun
  · rw [if_neg hcall] at hrun
    simp only [Option.some.injEq, Prod.mk.injEq] at hrun
    obtain ⟨h1, h2, h3⟩ := hrun
    rw [← h3]
    rfl

/-- Claim C10: the timeout overload of `blockingCall` sets the wrapped
client's request timeout before issuing the call and never restores the
previous value; the plain overload never writes it, so the configured
timeout persists on the instance and every subsequent plain
`blockingCall` runs with the most recently set request timeout. -/
theorem requestTimeout_persists [Inhabited Resp] (env env2 : CallEnv Resp)
    (s : BlockingServiceClient Resp) (timeout : Int) (fuel fuel2 : Nat) :
    blockingCallWithTimeout env s timeout fuel
        = blockingCall env { s with requestTimeout := timeout } fuel
    ∧ (∀ st k s', blockingCall env s fuel = some (st, k, s') →
        s'.requestTimeout = s.requestTimeout)
    ∧ (∀ st k s', blockingCallWithTimeout env s timeout fuel = some (st, k, s') →
        s'.requestTimeout = timeout
        ∧ ∀ st2 k2 s'', blockingCall env2 s' fuel2 = some (st2, k2, s'') →
            s''.requestTimeout = timeout) := by
  refine ⟨rfl, fun st k s' h => blockingCall_requestTimeout env s fuel st k s' h, ?_⟩
  intro st k s' h
  have h1 : s'.requestTimeout = timeout :=
    blockingCall_requestTimeout env { s with requestTimeout := timeout } fuel st k s' h
  refine ⟨h1, fun st2 k2 s'' h2 => ?_⟩
  rw [blockingCall_requestTimeout env2 s' fuel2 st2 k2 s'' h2, h1]

/-- First call of `requestTimeout_persists_witness`: issuance fails. -/
def envIssueRejected : CallEnv Int :=
  { callRes := -2
    spinRes := fun _ => 0
    resolvesAt := none
    result := { response := 0, isSuccessful := false } }

/-- Second call of `requestTimeout_persists_witness`: resolves during the
first spin slice. -/
def envThenResolve : CallEnv Int :=
  { callRes := 0
    spinRes := fun _ => 0
    resolvesAt := some 0
    result := { response := 5, isSuccessful := true } }

theorem requestTimeout_persists_witness :
    (⟨0, false, 77⟩ : BlockingServiceClient Int).requestTimeout = 77
    ∧ (⟨5, true, 77⟩ : BlockingServiceClient Int).requestTimeout = 77 :=
  have h := (requestTimeout_persists envIssueRejected envThenResolve
    (BlockingServiceClient.make Int 11) 77 1 2).2.2 (-2) 0 ⟨0, false, 77⟩ (by decide)
  ⟨h.1, h.2 0 1 ⟨5, true, 77⟩ (by decide)⟩
